import Mathlib

/-!
Shallow embedding of the devtoday backend (Express + Prisma) route handlers.

The data store is modelled as lists of rows, one list per Prisma model
(schema.prisma); each handler becomes a pure function from a `Db` and its
request arguments to an HTTP response paired with the successor `Db`.
Prisma client error codes are reflected by the branch each handler's catch
block maps them to: P2002 (unique violation), P2003 (foreign-key violation),
P2025 (record-to-update/delete not found).  Non-deterministic inputs of the
real system (uuid defaults, clock) are passed in as explicit arguments.
-/

namespace DevToday

/-- The HTTP status codes the handlers use (via the http-status-codes package). -/
inductive Status where
  | ok
  | created
  | badRequest
  | forbidden
  | notFound
  | conflict
  | internalServerError
deriving DecidableEq, Repr

/-- Row of the `User` model: unique id, unique email, nullable password hash,
username, nullable image. -/
structure UserRow where
  id : String
  email : String
  password : Option String
  username : String
  image : Option String
deriving DecidableEq, Repr

/-- Row of the `Profile` model (one-to-one with `User`); only the field the
auth handlers write is carried. -/
structure ProfileRow where
  userId : String
  onBoardingCompleted : Bool
deriving DecidableEq, Repr

/-- Row of the `Tag` model: unique id, unique name. -/
structure TagRow where
  id : String
  name : String
deriving DecidableEq, Repr

/-- The `PostType` enum of the schema. -/
inductive PostType where
  | MEETUP
  | PODCAST
  | STANDARD
deriving DecidableEq, Repr

/-- Row of the `Post` model.  `DateTime` columns are modelled as strings. -/
structure PostRow where
  id : String
  authorId : String
  title : String
  createType : PostType
  groupId : Option String
  coverImage : Option String
  audioFile : Option String
  audioTitle : Option String
  meetupLocation : Option String
  meetupDate : Option String
  tinyContent : Option String
  createdAt : String
  views : Nat
deriving DecidableEq, Repr

/-- Row of the `Like` model, composite primary key (userId, postId). -/
structure LikeRow where
  userId : String
  postId : String
deriving DecidableEq, Repr

/-- Row of the `Group` model; (name, creatorId) is unique. -/
structure GroupRow where
  id : String
  name : String
  profileImage : String
  coverImage : Option String
  bio : Option String
  creatorId : String
deriving DecidableEq, Repr

/-- Row of the `GroupUser` model, composite primary key (userId, groupId). -/
structure GroupUserRow where
  userId : String
  groupId : String
  isAdmin : Bool
deriving DecidableEq, Repr

/-- The relational store: one list of rows per model, plus the implicit
many-to-many join table `_PostToTag` as (postId, tagId) pairs. -/
structure Db where
  users : List UserRow
  profiles : List ProfileRow
  tags : List TagRow
  posts : List PostRow
  postTags : List (String × String)
  likes : List LikeRow
  groups : List GroupRow
  groupUsers : List GroupUserRow
deriving DecidableEq, Repr

/-- JSON response bodies distinguished as far as the claims need:
a `{message}` object, a JSON `null`, or a serialized entity. -/
inductive Body where
  | msg (m : String)
  | jsonNull
  | user (u : UserRow)
  | userWithProfile (u : UserRow) (p : Option ProfileRow)
  | post (p : PostRow)
  | group (g : GroupRow)
  | groupUser (gu : GroupUserRow)
  | groupUsers (l : List GroupUserRow)
deriving DecidableEq, Repr

/-- An HTTP response: status code plus JSON body. -/
structure Resp where
  status : Status
  body : Body
deriving DecidableEq, Repr

/-- JavaScript's `String.prototype.toLowerCase()`: character-wise lowercase
mapping of the string. -/
def toLowerCase (s : String) : String :=
  String.mk (s.data.map Char.toLower)

/-- Modelled from the spec: the bcrypt salted one-way hash is an external
collaborator (spec section 1 lists password hashing primitives as out of
scope); it is modelled as an injective tagged encoding.  What matters for the
handlers is that hashes are never the empty string and that `bcryptCompare`
accepts exactly the password the hash was produced from. -/
def bcryptHashSync (password : String) : String :=
  "$2b$10$" ++ password

/-- Modelled from the spec: `bcrypt.compare` checks a plaintext password
against a stored hash, never matching a string that is not a hash. -/
def bcryptCompare (password stored : String) : Bool :=
  stored == bcryptHashSync password

/-- POST /auth/register (src/routes/auth.ts): lower-cases the email, hashes
the password, creates User plus empty Profile; a P2002 unique violation on
the email becomes Conflict. -/
def register (db : Db) (username email password : String) (newUserId : String) :
    Resp × Db :=
  let e := toLowerCase email
  if db.users.any (fun u => u.email == e) then
    ({ status := .conflict, body := .msg "Error user already exists" }, db)
  else
    let u : UserRow :=
      { id := newUserId, email := e, password := some (bcryptHashSync password)
        username := username, image := none }
    let p : ProfileRow := { userId := newUserId, onBoardingCompleted := false }
    ({ status := .created, body := .msg "User created successfully" },
      { db with users := db.users ++ [u], profiles := db.profiles ++ [p] })

/-- POST /auth/login (src/routes/auth.ts, final revision): exact-match email
lookup; the stored hash is defaulted to the empty string when null
(`storedPassword || ""`) before comparing. -/
def login (db : Db) (email password : String) : Resp × Db :=
  match db.users.find? (fun u => u.email == email) with
  | none => ({ status := .badRequest, body := .msg "No user found" }, db)
  | some userFound =>
    let storedPassword := userFound.password.getD ""
    if bcryptCompare password storedPassword then
      ({ status := .ok, body := .user userFound }, db)
    else
      ({ status := .badRequest, body := .msg "Incorrect email or password" }, db)

/-- POST /auth/user (src/routes/auth.ts): finds the user with embedded
profile and answers 200 whatever happens; a thrown lookup error (modelled by
the `storeFailure` flag) is answered 200 with a message, a missing user is
answered 200 with the JSON `null` that `findUnique` returned. -/
def getUserByEmail (db : Db) (email : String) (storeFailure : Bool) : Resp × Db :=
  if storeFailure then
    ({ status := .ok, body := .msg "User not found" }, db)
  else
    match db.users.find? (fun u => u.email == email) with
    | some u =>
      ({ status := .ok,
         body := .userWithProfile u (db.profiles.find? (fun p => p.userId == u.id)) }, db)
    | none => ({ status := .ok, body := .jsonNull }, db)

/-- Request body of POST /post/ (postSchema fields used by the handler). -/
structure PostInput where
  authorId : String
  title : String
  createType : PostType
  groupId : Option String
  coverImage : Option String
  audioFile : Option String
  audioTitle : Option String
  meetupLocation : Option String
  meetupDate : Option String
  tinyContent : Option String
  interestTechTags : List String
deriving DecidableEq, Repr

/-- First phase of the tag resolve-or-create loop in POST /post/: the handler
maps the tag names through `Promise.all`, so every `tag.findUnique` is issued
before any `tag.create`; each lookup therefore sees the tag table as it was
when the request arrived.  A hit is recorded as the found id (`inl`), a miss
as the name still to create (`inr`). -/
def tagFindPhase (tags : List TagRow) (names : List String) : List (String ⊕ String) :=
  names.map fun n =>
    match tags.find? (fun t => t.name == n) with
    | some t => Sum.inl t.id
    | none => Sum.inr n

/-- Outcome of the create phase: the resolved tag ids in request order, the
evolved tag table, and whether some `tag.create` hit the unique constraint on
`Tag.name` (Prisma error P2002). -/
structure TagPhase where
  ids : List String
  tags : List TagRow
  p2002 : Bool
deriving DecidableEq, Repr

/-- The next fresh uuid to consume (empty string when the supply is out). -/
def nextFresh : List String → String
  | [] => ""
  | i :: _ => i

/-- Second phase of the tag resolve-or-create loop: the scheduled
`tag.create` calls run in request order against the evolving tag table (the
event loop resumes each mapped closure once its lookup resolved).  A create
whose name meanwhile exists rejects with P2002; the remaining already
scheduled creates still run, so their tags persist even though the handler
will answer 500.  Fresh uuids are consumed from `freshIds`. -/
def tagCreatePhase : List TagRow → List (String ⊕ String) → List String → TagPhase
  | tags, [], _ => { ids := [], tags := tags, p2002 := false }
  | tags, Sum.inl i :: rest, freshIds =>
    let r := tagCreatePhase tags rest freshIds
    { r with ids := i :: r.ids }
  | tags, Sum.inr n :: rest, freshIds =>
    if tags.any (fun t => t.name == n) then
      let r := tagCreatePhase tags rest freshIds
      { r with p2002 := true }
    else
      let newTag : TagRow := { id := nextFresh freshIds, name := n }
      let r := tagCreatePhase (tags ++ [newTag]) rest freshIds.tail
      { r with ids := newTag.id :: r.ids }

/-- `interestTechTags: { connect: tagIds.map(...) }` on the implicit
many-to-many table: an edge is added once per distinct resolved id. -/
def connectTagIds (postId : String) (edges : List (String × String)) :
    List String → List (String × String)
  | [] => edges
  | tid :: rest =>
    if edges.contains (postId, tid) then connectTagIds postId edges rest
    else connectTagIds postId (edges ++ [(postId, tid)]) rest

/-- POST /post/ (create post): resolve-or-create every tag name, then create
the post connected to the resolved ids.  The catch block is a blanket 500, so
a P2002 from a racing duplicate create, or a P2003 when the author or group
foreign key is dangling, all surface as InternalServerError; the tags already
created persist because no transaction wraps the steps. -/
def createPost (db : Db) (input : PostInput) (freshTagIds : List String)
    (newPostId now : String) : Resp × Db :=
  let finds := tagFindPhase db.tags input.interestTechTags
  let r := tagCreatePhase db.tags finds freshTagIds
  let db1 := { db with tags := r.tags }
  if r.p2002 then
    ({ status := .internalServerError, body := .msg "Internal server error" }, db1)
  else if !(db.users.any (fun u => u.id == input.authorId)) then
    ({ status := .internalServerError, body := .msg "Internal server error" }, db1)
  else if (match input.groupId with
           | none => false
           | some gid => !(db.groups.any (fun g => g.id == gid))) then
    ({ status := .internalServerError, body := .msg "Internal server error" }, db1)
  else
    let post : PostRow :=
      { id := newPostId, authorId := input.authorId, title := input.title
        createType := input.createType, groupId := input.groupId
        coverImage := input.coverImage, audioFile := input.audioFile
        audioTitle := input.audioTitle, meetupLocation := input.meetupLocation
        meetupDate := input.meetupDate, tinyContent := input.tinyContent
        createdAt := now, views := 0 }
    ({ status := .ok, body := .post post },
      { db1 with posts := db1.posts ++ [post]
                 postTags := connectTagIds newPostId db1.postTags r.ids })

/-- The write set of PATCH /post/:id: `data: { title, tinyContent }`, where a
field left out of the body (undefined) is ignored by `update`. -/
def applyPostPatch (title tinyContent : Option String) (p : PostRow) : PostRow :=
  { p with
    title := title.getD p.title
    tinyContent := match tinyContent with | none => p.tinyContent | some c => some c }

/-- PATCH /post/:id (edit post): `post.update` on a missing id throws P2025,
mapped to NotFound; otherwise only title and tinyContent are written. -/
def updatePost (db : Db) (id : String) (title tinyContent : Option String) :
    Resp × Db :=
  match db.posts.find? (fun p => p.id == id) with
  | none => ({ status := .notFound, body := .msg "Post to update does not exist" }, db)
  | some p0 =>
    ({ status := .ok, body := .post (applyPostPatch title tinyContent p0) },
      { db with posts :=
          db.posts.map (fun p => if p.id == id then applyPostPatch title tinyContent p else p) })

/-- POST /post/:id/like: a nested `likes.create` under `post.update`.  The
update throws P2025 when the post id is missing (NotFound); the insert throws
P2002 when the (userId, postId) pair exists (Conflict) and P2003 when the
liker's user row is missing (NotFound); the unique check of the inserted row
fires before its foreign-key triggers. -/
def likePost (db : Db) (likedPostId likerId : String) : Resp × Db :=
  if !(db.posts.any (fun p => p.id == likedPostId)) then
    ({ status := .notFound, body := .msg "Post with this ID not found" }, db)
  else if db.likes.any (fun l => l.userId == likerId && l.postId == likedPostId) then
    ({ status := .conflict, body := .msg "You can't like a post twice" }, db)
  else if !(db.users.any (fun u => u.id == likerId)) then
    ({ status := .notFound, body := .msg "User with this ID not found" }, db)
  else
    ({ status := .ok, body := .msg "You now like this post" },
      { db with likes := db.likes ++ [{ userId := likerId, postId := likedPostId }] })

/-- POST /post/:id/unlike: `like.delete` by the composite key; the P2025 it
throws when the row is absent is mapped to NotFound. -/
def unlikePost (db : Db) (likedPostId likerId : String) : Resp × Db :=
  if db.likes.any (fun l => l.userId == likerId && l.postId == likedPostId) then
    ({ status := .ok, body := .msg "Unliked this post" },
      { db with likes :=
          db.likes.filter (fun l => !(l.userId == likerId && l.postId == likedPostId)) })
  else
    ({ status := .notFound, body := .msg "Record to delete does not exist" }, db)

/-- A member entry of the POST /group/create body, spread into the nested
`groupUser.create` list. -/
structure GroupMemberInput where
  userId : String
  isAdmin : Bool
deriving DecidableEq, Repr

/-- POST /group/create: stores `name.toLowerCase()`, `bio.toLowerCase()` and
`profileImage || ""`, creating the creator's admin membership plus the
supplied members in the same nested write.  A P2002 — from the (name,
creatorId) unique constraint of `Group`, or from a duplicated (userId,
groupId) key among the nested membership rows — becomes Conflict; a P2003
from a dangling user id is not classified by the catch and becomes 500.  The
nested write is atomic, so every failure leaves the store unchanged. -/
def createGroup (db : Db) (name bio : String) (profileImage coverImage : Option String)
    (creatorId : String) (members : List GroupMemberInput) (newGroupId : String) :
    Resp × Db :=
  let lname := toLowerCase name
  let rows : List GroupUserRow :=
    { userId := creatorId, groupId := newGroupId, isAdmin := true } ::
      members.map (fun m => { userId := m.userId, groupId := newGroupId, isAdmin := m.isAdmin })
  if db.groups.any (fun g => g.name == lname && g.creatorId == creatorId) then
    ({ status := .conflict, body := .msg "Group already exists" }, db)
  else if !((rows.map (fun r => r.userId)).Nodup : Bool) then
    ({ status := .conflict, body := .msg "Group already exists" }, db)
  else if !(rows.all (fun r => db.users.any (fun u => u.id == r.userId))) then
    ({ status := .internalServerError, body := .msg "Internal server error" }, db)
  else
    let g : GroupRow :=
      { id := newGroupId, name := lname, profileImage := profileImage.getD ""
        coverImage := coverImage, bio := some (toLowerCase bio), creatorId := creatorId }
    ({ status := .ok, body := .group g },
      { db with groups := db.groups ++ [g], groupUsers := db.groupUsers ++ rows })

/-- GET /group/:id/admins: page of the group's GroupUser rows, `skip = (page -
1) * 10`, `take = 10`.  `findMany` resolves to an array, and a JS array is
truthy even when empty, so the `if (members)` success branch always runs and
the NotFound branch below it is unreachable. -/
def listAdmins (db : Db) (groupId : String) (page : Nat) : Resp × Db :=
  let pageSize := 10
  let skip := (page - 1) * pageSize
  let members := ((db.groupUsers.filter (fun gu => gu.groupId == groupId)).drop skip).take pageSize
  ({ status := .ok, body := .groupUsers members }, db)

/-- PATCH /group/:id/add-admin: `group?.creatorId !== creatorId` is true both
when the group is missing (undefined vs string) and when the requester is not
the creator, giving Forbidden; then `groupUser.update` throws P2025 when the
membership row is absent, which the catch does not classify, so the dead
`if (!groupUser)` NotFound check is skipped and the response is 500. -/
def addAdmin (db : Db) (groupId memberId creatorId : String) : Resp × Db :=
  match db.groups.find? (fun g => g.id == groupId) with
  | none =>
    ({ status := .forbidden, body := .msg "You are not allowed to add admins" }, db)
  | some group =>
    if group.creatorId != creatorId then
      ({ status := .forbidden, body := .msg "You are not allowed to add admins" }, db)
    else
      match db.groupUsers.find? (fun gu => gu.userId == memberId && gu.groupId == groupId) with
      | none =>
        ({ status := .internalServerError, body := .msg "Internal server error" }, db)
      | some gu =>
        ({ status := .ok, body := .groupUser { gu with isAdmin := true } },
          { db with groupUsers :=
              db.groupUsers.map (fun x =>
                if x.userId == memberId && x.groupId == groupId then { x with isAdmin := true } else x) })

/-- PATCH /group/:id/remove-admin: same shape as add-admin with
`isAdmin: false`. -/
def removeAdmin (db : Db) (groupId memberId creatorId : String) : Resp × Db :=
  match db.groups.find? (fun g => g.id == groupId) with
  | none =>
    ({ status := .forbidden, body := .msg "You are not allowed to remove admins" }, db)
  | some group =>
    if group.creatorId != creatorId then
      ({ status := .forbidden, body := .msg "You are not allowed to remove admins" }, db)
    else
      match db.groupUsers.find? (fun gu => gu.userId == memberId && gu.groupId == groupId) with
      | none =>
        ({ status := .internalServerError, body := .msg "Internal server error" }, db)
      | some gu =>
        ({ status := .ok, body := .groupUser { gu with isAdmin := false } },
          { db with groupUsers :=
              db.groupUsers.map (fun x =>
                if x.userId == memberId && x.groupId == groupId then { x with isAdmin := false } else x) })

/-- PATCH /group/:id (edit group): creator-gated like add-admin; the update
writes name/bio/profileImage/coverImage (fields absent from the body are left
as they were); renaming onto another group of the same creator violates the
(name, creatorId) unique constraint, a P2002 the catch answers with 500. -/
def editGroup (db : Db) (groupId : String)
    (name bio profileImage coverImage : Option String) (userId : String) : Resp × Db :=
  match db.groups.find? (fun g => g.id == groupId) with
  | none =>
    ({ status := .forbidden, body := .msg "You are not allowed to edit the group" }, db)
  | some group =>
    if group.creatorId != userId then
      ({ status := .forbidden, body := .msg "You are not allowed to edit the group" }, db)
    else
      let patched : GroupRow :=
        { group with
          name := name.getD group.name
          bio := match bio with | none => group.bio | some b => some b
          profileImage := profileImage.getD group.profileImage
          coverImage := match coverImage with | none => group.coverImage | some c => some c }
      if db.groups.any (fun g0 =>
          g0.id != groupId && g0.name == patched.name && g0.creatorId == group.creatorId) then
        ({ status := .internalServerError, body := .msg "Internal server error" }, db)
      else
        ({ status := .ok, body := .group patched },
          { db with groups :=
              db.groups.map (fun g0 => if g0.id == groupId then patched else g0) })

/-- DELETE /group/:id/remove: creator-gated via `group?.creatorId !==
adminId`; then `groupUser.delete` by composite key, whose P2025 on a missing
membership is mapped to NotFound. -/
def removeMember (db : Db) (groupId memberId adminId : String) : Resp × Db :=
  match db.groups.find? (fun g => g.id == groupId) with
  | none =>
    ({ status := .forbidden, body := .msg "You are not allowed to remove members" }, db)
  | some group =>
    if group.creatorId != adminId then
      ({ status := .forbidden, body := .msg "You are not allowed to remove members" }, db)
    else if db.groupUsers.any (fun gu => gu.userId == memberId && gu.groupId == groupId) then
      ({ status := .ok, body := .msg "User removed" },
        { db with groupUsers :=
            db.groupUsers.filter (fun gu => !(gu.userId == memberId && gu.groupId == groupId)) })
    else
      ({ status := .notFound, body := .msg "User not in the group" }, db)

/-- DELETE /group/:id: NotFound when the group is missing, Forbidden for a
requester other than the creator, else a cascading delete (GroupUser rows and
the group's posts cascade; likes and tag edges of those posts cascade in
turn) answering 200 with the group as read before deletion. -/
def deleteGroup (db : Db) (groupId creatorId : String) : Resp × Db :=
  match db.groups.find? (fun g => g.id == groupId) with
  | none => ({ status := .notFound, body := .msg "Group does not exist" }, db)
  | some group =>
    if group.creatorId == creatorId then
      let removedPosts := db.posts.filter (fun p => p.groupId == some groupId)
      ({ status := .ok, body := .group group },
        { db with
          groups := db.groups.filter (fun g => g.id != groupId)
          groupUsers := db.groupUsers.filter (fun gu => gu.groupId != groupId)
          posts := db.posts.filter (fun p => !(p.groupId == some groupId))
          likes := db.likes.filter (fun l => !(removedPosts.any (fun p => p.id == l.postId)))
          postTags := db.postTags.filter (fun e => !(removedPosts.any (fun p => p.id == e.1))) })
    else
      ({ status := .forbidden, body := .msg "Not Allowed" }, db)

/-! Concrete fixtures used by witnesses and counterexamples. -/

/-- The empty store. -/
def emptyDb : Db :=
  { users := [], profiles := [], tags := [], posts := [], postTags := []
    likes := [], groups := [], groupUsers := [] }

/-- A store with one group created by alice, who is its only member. -/
def aliceGroupDb : Db :=
  { emptyDb with
    users := [{ id := "alice", email := "alice@x.com", password := none
                username := "alice", image := none }]
    groups := [{ id := "g1", name := "devs", profileImage := "", coverImage := none
                 bio := none, creatorId := "alice" }]
    groupUsers := [{ userId := "alice", groupId := "g1", isAdmin := true }] }

/-- The group row of `aliceGroupDb`. -/
def aliceGroup : GroupRow :=
  { id := "g1", name := "devs", profileImage := "", coverImage := none
    bio := none, creatorId := "alice" }

/-- C1: for every group mutation gated on the creator (editGroup, deleteGroup,
addAdmin, removeAdmin, removeMember), a requester id other than the group's
creatorId is answered Forbidden and the store — hence the group row and every
GroupUser row — is exactly what it was before the call. -/
theorem creator_gate_forbidden_frame (db : Db) (gid rid mid : String) (g : GroupRow)
    (name bio pimg cimg : Option String)
    (hg : db.groups.find? (fun g0 => g0.id == gid) = some g)
    (hne : g.creatorId ≠ rid) :
    ((editGroup db gid name bio pimg cimg rid).1.status = .forbidden ∧
      (editGroup db gid name bio pimg cimg rid).2 = db) ∧
    ((deleteGroup db gid rid).1.status = .forbidden ∧ (deleteGroup db gid rid).2 = db) ∧
    ((addAdmin db gid mid rid).1.status = .forbidden ∧ (addAdmin db gid mid rid).2 = db) ∧
    ((removeAdmin db gid mid rid).1.status = .forbidden ∧ (removeAdmin db gid mid rid).2 = db) ∧
    ((removeMember db gid mid rid).1.status = .forbidden ∧ (removeMember db gid mid rid).2 = db) := by
  have hbne : (g.creatorId != rid) = true := by simp [hne]
  have hbeq : (g.creatorId == rid) = false := by simp [hne]
  simp [editGroup, deleteGroup, addAdmin, removeAdmin, removeMember, hg, hbne, hbeq]

/-- C1 witness: mallory is not the creator of g1, so all five mutations are
Forbidden and leave the store untouched. -/
theorem creator_gate_forbidden_frame_witness :
    ((editGroup aliceGroupDb "g1" none none none none "mallory").1.status = .forbidden ∧
      (editGroup aliceGroupDb "g1" none none none none "mallory").2 = aliceGroupDb) ∧
    ((deleteGroup aliceGroupDb "g1" "mallory").1.status = .forbidden ∧
      (deleteGroup aliceGroupDb "g1" "mallory").2 = aliceGroupDb) ∧
    ((addAdmin aliceGroupDb "g1" "bob" "mallory").1.status = .forbidden ∧
      (addAdmin aliceGroupDb "g1" "bob" "mallory").2 = aliceGroupDb) ∧
    ((removeAdmin aliceGroupDb "g1" "bob" "mallory").1.status = .forbidden ∧
      (removeAdmin aliceGroupDb "g1" "bob" "mallory").2 = aliceGroupDb) ∧
    ((removeMember aliceGroupDb "g1" "bob" "mallory").1.status = .forbidden ∧
      (removeMember aliceGroupDb "g1" "bob" "mallory").2 = aliceGroupDb) :=
  creator_gate_forbidden_frame aliceGroupDb "g1" "mallory" "bob" aliceGroup
    none none none none (by decide) (by decide)

/-- A bcrypt hash is never the empty string, so comparing any password
against the `""` that `storedPassword || ""` substitutes for a null hash is
false rather than an exception. -/
lemma bcryptCompare_empty_stored (password : String) :
    bcryptCompare password "" = false := by
  simp only [bcryptCompare, bcryptHashSync, beq_eq_false_iff_ne, ne_eq]
  intro h
  have hlen := congrArg String.length h
  simp [String.length_append] at hlen
  have h7 : "$2b$10$".length = 7 := rfl
  omega

/-- C3: login answers BadRequest "No user found" when no row has the exact
email; otherwise it compares the password against the stored hash, treating a
null hash as non-matching (no exception: the comparison totalizes over `""`),
answers BadRequest "Incorrect email or password" on a mismatch, and returns
the stored user row with 200 on a match. -/
theorem login_spec (db : Db) (email password : String) :
    (db.users.find? (fun u => u.email == email) = none →
      login db email password =
        ({ status := .badRequest, body := .msg "No user found" }, db)) ∧
    (∀ u, db.users.find? (fun u0 => u0.email == email) = some u → u.password = none →
      login db email password =
        ({ status := .badRequest, body := .msg "Incorrect email or password" }, db)) ∧
    (∀ u, db.users.find? (fun u0 => u0.email == email) = some u →
      bcryptCompare password (u.password.getD "") = false →
      login db email password =
        ({ status := .badRequest, body := .msg "Incorrect email or password" }, db)) ∧
    (∀ u, db.users.find? (fun u0 => u0.email == email) = some u →
      bcryptCompare password (u.password.getD "") = true →
      login db email password = ({ status := .ok, body := .user u }, db)) := by
  refine ⟨fun h => ?_, fun u hu hnull => ?_, fun u hu hcmp => ?_, fun u hu hcmp => ?_⟩
  · simp [login, h]
  · simp [login, hu, hnull, bcryptCompare_empty_stored]
  · simp [login, hu, hcmp]
  · simp [login, hu, hcmp]

/-- A store holding bob, registered with a hashed password, and carol, a
social-login account with a null password hash. -/
def loginDb : Db :=
  { emptyDb with
    users :=
      [{ id := "bob", email := "bob@x.com", password := some (bcryptHashSync "hunter2")
         username := "bob", image := none },
       { id := "carol", email := "carol@x.com", password := none
         username := "carol", image := none }] }

/-- C3 witness: the three login outcomes at concrete inputs, including the
null-hash account answering BadRequest instead of throwing. -/
theorem login_spec_witness :
    login loginDb "nobody@x.com" "pw" =
      ({ status := .badRequest, body := .msg "No user found" }, loginDb) ∧
    login loginDb "carol@x.com" "anything" =
      ({ status := .badRequest, body := .msg "Incorrect email or password" }, loginDb) ∧
    login loginDb "bob@x.com" "hunter2" =
      ({ status := .ok,
         body := .user { id := "bob", email := "bob@x.com"
                         password := some (bcryptHashSync "hunter2")
                         username := "bob", image := none } }, loginDb) := by
  refine ⟨(login_spec loginDb "nobody@x.com" "pw").1 (by decide), ?_, ?_⟩
  · exact (login_spec loginDb "carol@x.com" "anything").2.1
      { id := "carol", email := "carol@x.com", password := none
        username := "carol", image := none } (by decide) (by decide)
  · exact (login_spec loginDb "bob@x.com" "hunter2").2.2.2
      { id := "bob", email := "bob@x.com", password := some (bcryptHashSync "hunter2")
        username := "bob", image := none } (by decide) (by decide)

/-- A store with a group of carol's that has no GroupUser rows at all. -/
def emptyMembersDb : Db :=
  { emptyDb with
    users := [{ id := "carol", email := "carol@x.com", password := none
                username := "carol", image := none }]
    groups := [{ id := "g2", name := "empty club", profileImage := "", coverImage := none
                 bio := none, creatorId := "carol" }] }

/-- C4, failing input: listing the members of a group that has none answers
200 with the empty array, not the NotFound the spec states; `findMany`
resolves to an array and an empty JS array is still truthy, so the handler's
NotFound branch cannot run.  The page slice itself ((page-1)*10, at most 10
rows) is as specified. -/
theorem listAdmins_empty_answers_ok_not_notFound :
    listAdmins emptyMembersDb "g2" 1 =
      ({ status := .ok, body := .groupUsers [] }, emptyMembersDb) ∧
    (listAdmins emptyMembersDb "g2" 1).1.status ≠ .notFound ∧
    (listAdmins emptyMembersDb "g2" 2).1.status = .ok := by
  decide

/-- C5, failing input: with the requester equal to the creator but no
GroupUser row for (dave, g2), `groupUser.update` throws P2025; the catch
block has no P2025 branch (the `if (!groupUser)` NotFound check sits after
the throwing call and is dead), so both add-admin and remove-admin answer 500
instead of the NotFound the spec states.  When the row exists the flag is set
or cleared as specified. -/
theorem admin_flip_missing_membership_answers_500 :
    addAdmin emptyMembersDb "g2" "dave" "carol" =
      ({ status := .internalServerError, body := .msg "Internal server error" },
        emptyMembersDb) ∧
    removeAdmin emptyMembersDb "g2" "dave" "carol" =
      ({ status := .internalServerError, body := .msg "Internal server error" },
        emptyMembersDb) ∧
    (addAdmin emptyMembersDb "g2" "dave" "carol").1.status ≠ .notFound ∧
    (removeAdmin emptyMembersDb "g2" "dave" "carol").1.status ≠ .notFound ∧
    ((addAdmin aliceGroupDb "g1" "alice" "alice").2.groupUsers =
      [{ userId := "alice", groupId := "g1", isAdmin := true }]) ∧
    ((removeAdmin aliceGroupDb "g1" "alice" "alice").2.groupUsers =
      [{ userId := "alice", groupId := "g1", isAdmin := false }]) := by
  decide

/-- C6: liking an already-liked post is Conflict; liking with a missing post
id or a missing liker id is NotFound (two branches distinct from the
Conflict one); unliking a pair that has no Like row is NotFound. -/
theorem like_unlike_error_taxonomy (db : Db) (pid uid : String) :
    (db.posts.any (fun p => p.id == pid) = false →
      likePost db pid uid =
        ({ status := .notFound, body := .msg "Post with this ID not found" }, db)) ∧
    (db.posts.any (fun p => p.id == pid) = true →
      db.likes.any (fun l => l.userId == uid && l.postId == pid) = true →
      likePost db pid uid =
        ({ status := .conflict, body := .msg "You can't like a post twice" }, db)) ∧
    (db.posts.any (fun p => p.id == pid) = true →
      db.likes.any (fun l => l.userId == uid && l.postId == pid) = false →
      db.users.any (fun u => u.id == uid) = false →
      likePost db pid uid =
        ({ status := .notFound, body := .msg "User with this ID not found" }, db)) ∧
    (db.likes.any (fun l => l.userId == uid && l.postId == pid) = false →
      unlikePost db pid uid =
        ({ status := .notFound, body := .msg "Record to delete does not exist" }, db)) := by
  refine ⟨fun h1 => ?_, fun h1 h2 => ?_, fun h1 h2 h3 => ?_, fun h2 => ?_⟩
  · simp [likePost, h1]
  · simp [likePost, h1, h2]
  · simp [likePost, h1, h2, h3]
  · simp [unlikePost, h2]

/-- A store with dave's post p1, already liked by erin. -/
def likedPostDb : Db :=
  { emptyDb with
    users :=
      [{ id := "dave", email := "dave@x.com", password := none
         username := "dave", image := none },
       { id := "erin", email := "erin@x.com", password := none
         username := "erin", image := none }]
    posts :=
      [{ id := "p1", authorId := "dave", title := "hello", createType := .STANDARD
         groupId := none, coverImage := none, audioFile := none, audioTitle := none
         meetupLocation := none, meetupDate := none, tinyContent := none
         createdAt := "2024-01-01", views := 0 }]
    likes := [{ userId := "erin", postId := "p1" }] }

/-- C6 witness: the four outcomes at concrete inputs. -/
theorem like_unlike_error_taxonomy_witness :
    likePost likedPostDb "missing" "erin" =
      ({ status := .notFound, body := .msg "Post with this ID not found" }, likedPostDb) ∧
    likePost likedPostDb "p1" "erin" =
      ({ status := .conflict, body := .msg "You can't like a post twice" }, likedPostDb) ∧
    likePost likedPostDb "p1" "ghost" =
      ({ status := .notFound, body := .msg "User with this ID not found" }, likedPostDb) ∧
    unlikePost likedPostDb "p1" "dave" =
      ({ status := .notFound, body := .msg "Record to delete does not exist" }, likedPostDb) :=
  ⟨(like_unlike_error_taxonomy likedPostDb "missing" "erin").1 (by decide),
   (like_unlike_error_taxonomy likedPostDb "p1" "erin").2.1 (by decide) (by decide),
   (like_unlike_error_taxonomy likedPostDb "p1" "ghost").2.2.1 (by decide) (by decide) (by decide),
   (like_unlike_error_taxonomy likedPostDb "p1" "dave").2.2.2 (by decide)⟩

/-- C8: editing a post is NotFound when the id has no row; otherwise exactly
the rows with that id are rewritten through `applyPostPatch`, which changes
only title and tinyContent (and only when supplied) and keeps author, type,
group, media fields, timestamps and the view counter; every other table —
including the post-tag join table — is untouched. -/
theorem updatePost_partial_frame (db : Db) (id : String) (title tiny : Option String) :
    (db.posts.find? (fun p => p.id == id) = none →
      updatePost db id title tiny =
        ({ status := .notFound, body := .msg "Post to update does not exist" }, db)) ∧
    (∀ p0, db.posts.find? (fun p => p.id == id) = some p0 →
      (updatePost db id title tiny).1.status = .ok ∧
      (updatePost db id title tiny).2.posts =
        db.posts.map (fun p => if p.id == id then applyPostPatch title tiny p else p) ∧
      (updatePost db id title tiny).2.users = db.users ∧
      (updatePost db id title tiny).2.profiles = db.profiles ∧
      (updatePost db id title tiny).2.tags = db.tags ∧
      (updatePost db id title tiny).2.postTags = db.postTags ∧
      (updatePost db id title tiny).2.likes = db.likes ∧
      (updatePost db id title tiny).2.groups = db.groups ∧
      (updatePost db id title tiny).2.groupUsers = db.groupUsers) ∧
    (∀ p : PostRow,
      (applyPostPatch title tiny p).id = p.id ∧
      (applyPostPatch title tiny p).authorId = p.authorId ∧
      (applyPostPatch title tiny p).createType = p.createType ∧
      (applyPostPatch title tiny p).groupId = p.groupId ∧
      (applyPostPatch title tiny p).coverImage = p.coverImage ∧
      (applyPostPatch title tiny p).audioFile = p.audioFile ∧
      (applyPostPatch title tiny p).audioTitle = p.audioTitle ∧
      (applyPostPatch title tiny p).meetupLocation = p.meetupLocation ∧
      (applyPostPatch title tiny p).meetupDate = p.meetupDate ∧
      (applyPostPatch title tiny p).createdAt = p.createdAt ∧
      (applyPostPatch title tiny p).views = p.views ∧
      (applyPostPatch title tiny p).title = title.getD p.title ∧
      (applyPostPatch title tiny p).tinyContent =
        (match tiny with | none => p.tinyContent | some c => some c)) := by
  refine ⟨fun h => ?_, fun p0 h => ?_, fun p => ?_⟩
  · simp [updatePost, h]
  · simp [updatePost, h]
  · simp [applyPostPatch]

/-- C8 witness: patching only the title of p1 keeps every other field and
table; a missing id is NotFound. -/
theorem updatePost_partial_frame_witness :
    updatePost likedPostDb "missing" (some "x") none =
      ({ status := .notFound, body := .msg "Post to update does not exist" },
        likedPostDb) ∧
    (updatePost likedPostDb "p1" (some "renamed") none).1.status = .ok ∧
    (updatePost likedPostDb "p1" (some "renamed") none).2.postTags = likedPostDb.postTags ∧
    (updatePost likedPostDb "p1" (some "renamed") none).2.likes = likedPostDb.likes :=
  have h := updatePost_partial_frame likedPostDb "p1" (some "renamed") none
  have h1 := h.2.1 { id := "p1", authorId := "dave", title := "hello"
                     createType := .STANDARD, groupId := none, coverImage := none
                     audioFile := none, audioTitle := none, meetupLocation := none
                     meetupDate := none, tinyContent := none
                     createdAt := "2024-01-01", views := 0 } (by decide)
  ⟨(updatePost_partial_frame likedPostDb "missing" (some "x") none).1 (by decide),
   h1.1, h1.2.2.2.2.2.1, h1.2.2.2.2.2.2.1⟩

/-- C9 counterexample: with the store reachable and no user matching the
email, the handler answers 200 whose body is the JSON `null` that
`findUnique` produced — not a body carrying the "not found" message the
claim states (that message is only produced by the catch block). -/
theorem getUserByEmail_null_body_counterexample :
    (getUserByEmail emptyDb "x@y.com" false).1.status = .ok ∧
    (getUserByEmail emptyDb "x@y.com" false).1.body = .jsonNull ∧
    (getUserByEmail emptyDb "x@y.com" false).1.body ≠ .msg "User not found" := by
  decide

/-- C9 amended: the user-lookup-by-email operation always answers HTTP 200
and never mutates the store or propagates an error; a thrown lookup error is
answered 200 with the "User not found" message, while a missing user is
answered 200 with a JSON null body (not a message), and a found user is
answered 200 with the user and embedded profile. -/
theorem getUserByEmail_always_ok (db : Db) (email : String) (failure : Bool) :
    (getUserByEmail db email failure).1.status = .ok ∧
    (getUserByEmail db email failure).2 = db ∧
    (failure = true →
      (getUserByEmail db email failure).1.body = .msg "User not found") ∧
    (failure = false → db.users.find? (fun u => u.email == email) = none →
      (getUserByEmail db email failure).1.body = .jsonNull) ∧
    (∀ u, failure = false → db.users.find? (fun u0 => u0.email == email) = some u →
      (getUserByEmail db email failure).1.body =
        .userWithProfile u (db.profiles.find? (fun p => p.userId == u.id))) := by
  cases failure
  · cases h : db.users.find? (fun u => u.email == email) <;>
      simp [getUserByEmail, h]
  · simp [getUserByEmail]

/-- C9 witness for the amended claim: concrete instances of the three
outcomes, all with status 200. -/
theorem getUserByEmail_always_ok_witness :
    (getUserByEmail emptyDb "x@y.com" true).1.status = .ok ∧
    (getUserByEmail emptyDb "x@y.com" true).1.body = .msg "User not found" ∧
    (getUserByEmail emptyDb "x@y.com" false).1.body = .jsonNull :=
  ⟨(getUserByEmail_always_ok emptyDb "x@y.com" true).1,
   (getUserByEmail_always_ok emptyDb "x@y.com" true).2.2.1 rfl,
   (getUserByEmail_always_ok emptyDb "x@y.com" false).2.2.2.1 rfl (by decide)⟩

/-- C7: register stores the lower-cased email, so when no user holds that
folded email yet, registration succeeds with exactly one new user row whose
email is `toLowerCase email`; logging in afterwards with the lower-cased
email and the same password finds that row and succeeds; and a second
registration under any casing that folds to the same email is answered
Conflict and leaves the store unchanged. -/
theorem register_login_roundtrip (db : Db) (username email password newId : String)
    (h : db.users.any (fun u => u.email == toLowerCase email) = false) :
    (register db username email password newId).1.status = .created ∧
    ((register db username email password newId).2.users =
      db.users ++ [{ id := newId, email := toLowerCase email
                     password := some (bcryptHashSync password)
                     username := username, image := none }]) ∧
    (login (register db username email password newId).2 (toLowerCase email) password =
      ({ status := .ok,
         body := .user { id := newId, email := toLowerCase email
                         password := some (bcryptHashSync password)
                         username := username, image := none } },
        (register db username email password newId).2)) ∧
    (∀ username2 email2 password2 newId2, toLowerCase email2 = toLowerCase email →
      (register (register db username email password newId).2
          username2 email2 password2 newId2).1.status = .conflict ∧
      (register (register db username email password newId).2
          username2 email2 password2 newId2).2 =
        (register db username email password newId).2) := by
  have hfind0 : db.users.find? (fun u => u.email == toLowerCase email) = none :=
    List.find?_eq_none.mpr (List.any_eq_false.mp h)
  have hreg : register db username email password newId =
      ({ status := .created, body := .msg "User created successfully" },
        { db with
          users := db.users ++ [{ id := newId, email := toLowerCase email
                                  password := some (bcryptHashSync password)
                                  username := username, image := none }]
          profiles := db.profiles ++ [{ userId := newId, onBoardingCompleted := false }] }) := by
    simp [register, h]
  refine ⟨by rw [hreg], by rw [hreg], ?_, ?_⟩
  · rw [hreg]
    simp [login, List.find?_append, hfind0, List.find?_cons, bcryptCompare]
  · intro username2 email2 password2 newId2 he2
    rw [hreg]
    have hany : ((db.users ++ [({ id := newId, email := toLowerCase email
                                  password := some (bcryptHashSync password)
                                  username := username, image := none } : UserRow)]).any
        (fun u => u.email == toLowerCase email2)) = true := by
      simp [List.any_append, he2]
    constructor <;> simp [register, hany]

/-- C7 witness: registering "A@b.com" then logging in with "a@b.com" and the
same password succeeds, and re-registering as "a@B.COM" is Conflict. -/
theorem register_login_roundtrip_witness :
    (register emptyDb "ann" "A@b.com" "pw1" "u1").1.status = .created ∧
    ((register emptyDb "ann" "A@b.com" "pw1" "u1").2.users =
      emptyDb.users ++ [{ id := "u1", email := toLowerCase "A@b.com"
                          password := some (bcryptHashSync "pw1")
                          username := "ann", image := none }]) ∧
    (login (register emptyDb "ann" "A@b.com" "pw1" "u1").2 (toLowerCase "A@b.com") "pw1" =
      ({ status := .ok,
         body := .user { id := "u1", email := toLowerCase "A@b.com"
                         password := some (bcryptHashSync "pw1")
                         username := "ann", image := none } },
        (register emptyDb "ann" "A@b.com" "pw1" "u1").2)) ∧
    (register (register emptyDb "ann" "A@b.com" "pw1" "u1").2
        "imposter" "a@B.COM" "pw2" "u2").1.status = .conflict ∧
    (register (register emptyDb "ann" "A@b.com" "pw1" "u1").2
        "imposter" "a@B.COM" "pw2" "u2").2 =
      (register emptyDb "ann" "A@b.com" "pw1" "u1").2 :=
  have h := register_login_roundtrip emptyDb "ann" "A@b.com" "pw1" "u1" (by decide)
  ⟨h.1, h.2.1, h.2.2.1,
   (h.2.2.2 "imposter" "a@B.COM" "pw2" "u2" (by decide)).1,
   (h.2.2.2 "imposter" "a@B.COM" "pw2" "u2" (by decide)).2⟩

/-- C10: a successful group creation stores the lower-cased name and bio and
turns a missing or falsy profileImage into the empty string, adds the
creator's GroupUser row with isAdmin true (followed by the supplied member
rows), and afterwards creating a group under the same creator with any
casing of that name is answered Conflict with the store unchanged. -/
theorem createGroup_lowercase_conflict (db : Db) (name bio : String)
    (pimg cimg : Option String) (creatorId gid : String)
    (members : List GroupMemberInput)
    (hdup : db.groups.any
      (fun g => g.name == toLowerCase name && g.creatorId == creatorId) = false)
    (hnodup : (creatorId :: members.map (fun m => m.userId)).Nodup)
    (hcreator : db.users.any (fun u => u.id == creatorId) = true)
    (hmembers : members.all (fun m => db.users.any (fun u => u.id == m.userId)) = true) :
    (createGroup db name bio pimg cimg creatorId members gid).1.status = .ok ∧
    ((createGroup db name bio pimg cimg creatorId members gid).2.groups =
      db.groups ++ [{ id := gid, name := toLowerCase name
                      profileImage := pimg.getD "", coverImage := cimg
                      bio := some (toLowerCase bio), creatorId := creatorId }]) ∧
    ((pimg = none ∨ pimg = some "") → pimg.getD "" = "") ∧
    ((createGroup db name bio pimg cimg creatorId members gid).2.groupUsers =
      db.groupUsers ++
        ({ userId := creatorId, groupId := gid, isAdmin := true } ::
          members.map (fun m =>
            { userId := m.userId, groupId := gid, isAdmin := m.isAdmin }))) ∧
    (∀ name2 bio2 pimg2 cimg2 members2 gid2, toLowerCase name2 = toLowerCase name →
      (createGroup (createGroup db name bio pimg cimg creatorId members gid).2
          name2 bio2 pimg2 cimg2 creatorId members2 gid2).1.status = .conflict ∧
      (createGroup (createGroup db name bio pimg cimg creatorId members gid).2
          name2 bio2 pimg2 cimg2 creatorId members2 gid2).2 =
        (createGroup db name bio pimg cimg creatorId members gid).2) := by
  have hall : (({ userId := creatorId, groupId := gid, isAdmin := true } : GroupUserRow) ::
      members.map (fun m =>
        ({ userId := m.userId, groupId := gid, isAdmin := m.isAdmin } : GroupUserRow))).all
        (fun r => db.users.any (fun u => u.id == r.userId)) = true := by
    apply List.all_eq_true.mpr
    intro r hr
    rcases List.mem_cons.mp hr with h1 | h1
    · subst h1; simpa using hcreator
    · obtain ⟨m, hm, rfl⟩ := List.mem_map.mp h1
      simpa using List.all_eq_true.mp hmembers m hm
  have hcg : createGroup db name bio pimg cimg creatorId members gid =
      ({ status := .ok,
         body := .group { id := gid, name := toLowerCase name
                          profileImage := pimg.getD "", coverImage := cimg
                          bio := some (toLowerCase bio), creatorId := creatorId } },
        { db with
          groups := db.groups ++ [{ id := gid, name := toLowerCase name
                                    profileImage := pimg.getD "", coverImage := cimg
                                    bio := some (toLowerCase bio), creatorId := creatorId }]
          groupUsers := db.groupUsers ++
            ({ userId := creatorId, groupId := gid, isAdmin := true } ::
              members.map (fun m =>
                { userId := m.userId, groupId := gid, isAdmin := m.isAdmin })) }) := by
    simp [createGroup, hdup, hall]
    refine ⟨fun x hx hxeq =>
      (List.nodup_cons.mp hnodup).1 (List.mem_map.mpr ⟨x, hx, hxeq⟩), ?_⟩
    simpa [Function.comp_def] using (List.nodup_cons.mp hnodup).2
  refine ⟨by rw [hcg], by rw [hcg], fun hp => ?_, by rw [hcg], ?_⟩
  · rcases hp with hp | hp <;> simp [hp]
  · intro name2 bio2 pimg2 cimg2 members2 gid2 he2
    rw [hcg]
    have hany2 : ((db.groups ++ [({ id := gid, name := toLowerCase name
                                    profileImage := pimg.getD "", coverImage := cimg
                                    bio := some (toLowerCase bio)
                                    creatorId := creatorId } : GroupRow)]).any
        (fun g => g.name == toLowerCase name2 && g.creatorId == creatorId)) = true := by
      simp [List.any_append, he2]
    constructor <;> simp [createGroup, hany2]

/-- C10 witness: creating "DevToday Rocks" for frank stores the lower-cased
name and bio, the empty profileImage, frank's admin row first and grace's
member row after it; re-creating "DEVTODAY ROCKS" for frank is Conflict. -/
theorem createGroup_lowercase_conflict_witness :
    (createGroup likedPostDb "DevToday Rocks" "Be Nice" none none "dave"
        [{ userId := "erin", isAdmin := false }] "g9").1.status = .ok ∧
    ((createGroup likedPostDb "DevToday Rocks" "Be Nice" none none "dave"
        [{ userId := "erin", isAdmin := false }] "g9").2.groups =
      likedPostDb.groups ++
        [{ id := "g9", name := toLowerCase "DevToday Rocks"
           profileImage := (none : Option String).getD "", coverImage := none
           bio := some (toLowerCase "Be Nice"), creatorId := "dave" }]) ∧
    ((createGroup likedPostDb "DevToday Rocks" "Be Nice" none none "dave"
        [{ userId := "erin", isAdmin := false }] "g9").2.groupUsers =
      likedPostDb.groupUsers ++
        [{ userId := "dave", groupId := "g9", isAdmin := true },
         { userId := "erin", groupId := "g9", isAdmin := false }]) ∧
    (createGroup (createGroup likedPostDb "DevToday Rocks" "Be Nice" none none "dave"
        [{ userId := "erin", isAdmin := false }] "g9").2
        "DEVTODAY ROCKS" "x" none none "dave" [] "g10").1.status = .conflict :=
  have h := createGroup_lowercase_conflict likedPostDb "DevToday Rocks" "Be Nice"
    none none "dave" "g9" [{ userId := "erin", isAdmin := false }]
    (by decide) (by decide) (by decide) (by decide)
  ⟨h.1, h.2.1, h.2.2.2.1,
   (h.2.2.2.2 "DEVTODAY ROCKS" "x" none none [] "g10" (by decide)).1⟩

/-- The names a find-phase left to create (the `inr` entries, in order). -/
def pendingNames (finds : List (String ⊕ String)) : List String :=
  finds.filterMap (fun x => match x with | Sum.inl _ => none | Sum.inr n => some n)

/-- The find phase leaves exactly the names that have no tag row yet. -/
lemma pendingNames_tagFindPhase (tags : List TagRow) (names : List String) :
    pendingNames (tagFindPhase tags names) =
      names.filter (fun n => !(tags.any (fun t => t.name == n))) := by
  induction names with
  | nil => rfl
  | cons n rest ih =>
    cases h : tags.find? (fun t => t.name == n) with
    | none =>
      have hany : tags.any (fun t => t.name == n) = false :=
        List.any_eq_false.mpr (List.find?_eq_none.mp h)
      simp [tagFindPhase, pendingNames, List.filterMap_cons, h, hany,
        List.filter_cons] at *
      exact ih
    | some t =>
      have hmem : t ∈ tags := List.mem_of_find?_eq_some h
      have hp := @List.find?_some TagRow (fun t0 => t0.name == n) t tags h
      have hany : tags.any (fun t0 => t0.name == n) = true :=
        List.any_eq_true.mpr ⟨t, hmem, hp⟩
      simp [tagFindPhase, pendingNames, List.filterMap_cons, h, hany,
        List.filter_cons] at *
      exact ih

/-- The create phase only ever adds tag rows. -/
lemma tagCreatePhase_tags_mono (finds : List (String ⊕ String)) :
    ∀ (tags : List TagRow) (freshIds : List String) (t : TagRow), t ∈ tags →
      t ∈ (tagCreatePhase tags finds freshIds).tags := by
  induction finds with
  | nil => intro tags freshIds t ht; simpa [tagCreatePhase] using ht
  | cons x rest ih =>
    intro tags freshIds t ht
    cases x with
    | inl i => simpa [tagCreatePhase] using ih tags freshIds t ht
    | inr n =>
      cases hc : tags.any (fun t0 => t0.name == n) with
      | true => simpa [tagCreatePhase, hc] using ih tags freshIds t ht
      | false =>
        simp only [tagCreatePhase, hc, Bool.false_eq_true, if_false]
        exact ih (tags ++ [{ id := nextFresh freshIds, name := n }]) freshIds.tail t
          (List.mem_append_left _ ht)

/-- When no pending name repeats and none is already present, the create
phase raises no P2002; the final tag-name column is the old one extended by
exactly the pending names; each find-phase entry resolves — an `inl` to the
id it found, an `inr` to the id of a row of that name in the final table —
and one id comes back per entry. -/
lemma tagCreatePhase_ok (finds : List (String ⊕ String)) :
    ∀ (tags : List TagRow) (freshIds : List String),
      (pendingNames finds).Nodup →
      (∀ n ∈ pendingNames finds, tags.any (fun t => t.name == n) = false) →
      (tagCreatePhase tags finds freshIds).p2002 = false ∧
      ((tagCreatePhase tags finds freshIds).tags.map (fun t => t.name) =
        tags.map (fun t => t.name) ++ pendingNames finds) ∧
      (∀ pr ∈ finds.zip (tagCreatePhase tags finds freshIds).ids,
        (∀ i, pr.1 = Sum.inl i → pr.2 = i) ∧
        (∀ n, pr.1 = Sum.inr n →
          ∃ t ∈ (tagCreatePhase tags finds freshIds).tags, t.name = n ∧ t.id = pr.2)) ∧
      (tagCreatePhase tags finds freshIds).ids.length = finds.length := by
  induction finds with
  | nil =>
    intro tags freshIds _ _
    simp [tagCreatePhase, pendingNames]
  | cons x rest ih =>
    intro tags freshIds hnodup hfr
    cases x with
    | inl i =>
      have hpend : pendingNames (Sum.inl i :: rest) = pendingNames rest := by
        simp [pendingNames, List.filterMap_cons]
      rw [hpend] at hnodup hfr
      obtain ⟨h1, h2, h3, h4⟩ := ih tags freshIds hnodup hfr
      have hstep : tagCreatePhase tags (Sum.inl i :: rest) freshIds =
          { tagCreatePhase tags rest freshIds with
            ids := i :: (tagCreatePhase tags rest freshIds).ids } := by
        simp [tagCreatePhase]
      refine ⟨by rw [hstep]; exact h1, ?_, ?_, by rw [hstep]; simp [h4]⟩
      · rw [hstep, hpend]; exact h2
      · intro pr hpr
        rw [hstep] at hpr
        simp only [List.zip_cons_cons] at hpr
        rcases List.mem_cons.mp hpr with hpr | hpr
        · subst hpr
          constructor
          · intro j hj
            cases hj
            rfl
          · intro m hm
            cases hm
        · have hp3 := h3 pr hpr
          refine ⟨hp3.1, fun m hm => ?_⟩
          obtain ⟨t, htmem, htn, hti⟩ := hp3.2 m hm
          exact ⟨t, by rw [hstep]; exact htmem, htn, hti⟩
    | inr n =>
      have hpend : pendingNames (Sum.inr n :: rest) = n :: pendingNames rest := by
        simp [pendingNames, List.filterMap_cons]
      rw [hpend] at hnodup hfr
      have hnmem : n ∉ pendingNames rest := (List.nodup_cons.mp hnodup).1
      have hnodup' : (pendingNames rest).Nodup := (List.nodup_cons.mp hnodup).2
      have hn0 : tags.any (fun t => t.name == n) = false := hfr n (List.mem_cons_self n _)
      have hfr' : ∀ m ∈ pendingNames rest,
          (tags ++ [({ id := nextFresh freshIds, name := n } : TagRow)]).any
            (fun t => t.name == m) = false := by
        intro m hm
        have ha : tags.any (fun t => t.name == m) = false :=
          hfr m (List.mem_cons_of_mem _ hm)
        have hb : (n == m) = false :=
          beq_eq_false_iff_ne.mpr (fun he => hnmem (he ▸ hm))
        simp [List.any_append, ha, hb]
      obtain ⟨h1, h2, h3, h4⟩ :=
        ih (tags ++ [{ id := nextFresh freshIds, name := n }]) freshIds.tail hnodup' hfr'
      have hstep : tagCreatePhase tags (Sum.inr n :: rest) freshIds =
          { tagCreatePhase (tags ++ [{ id := nextFresh freshIds, name := n }])
              rest freshIds.tail with
            ids := nextFresh freshIds ::
              (tagCreatePhase (tags ++ [{ id := nextFresh freshIds, name := n }])
                rest freshIds.tail).ids } := by
        simp only [tagCreatePhase, hn0, Bool.false_eq_true, if_false]
      refine ⟨by rw [hstep]; exact h1, ?_, ?_, by rw [hstep]; simp [h4]⟩
      · rw [hstep, hpend]
        simp only [h2, List.map_append]
        simp
      · intro pr hpr
        rw [hstep] at hpr
        simp only [List.zip_cons_cons] at hpr
        rcases List.mem_cons.mp hpr with hpr | hpr
        · subst hpr
          constructor
          · intro j hj
            cases hj
          · intro m hm
            cases hm
            refine ⟨{ id := nextFresh freshIds, name := n }, ?_, rfl, rfl⟩
            rw [hstep]
            exact tagCreatePhase_tags_mono rest _ freshIds.tail _
              (List.mem_append_right _ (List.mem_singleton.mpr rfl))
        · have hp3 := h3 pr hpr
          refine ⟨hp3.1, fun m hm => ?_⟩
          obtain ⟨t, htmem, htn, hti⟩ := hp3.2 m hm
          exact ⟨t, by rw [hstep]; exact htmem, htn, hti⟩

/-- Edges already in the join table survive a connect. -/
lemma connectTagIds_mono (pid : String) :
    ∀ (tagIds : List String) (edges : List (String × String)) (e : String × String),
      e ∈ edges → e ∈ connectTagIds pid edges tagIds := by
  intro tagIds
  induction tagIds with
  | nil => intro edges e he; simpa [connectTagIds] using he
  | cons tid rest ih =>
    intro edges e he
    show e ∈ (if edges.contains (pid, tid) then connectTagIds pid edges rest
      else connectTagIds pid (edges ++ [(pid, tid)]) rest)
    cases hc : edges.contains (pid, tid) with
    | true =>
      rw [if_pos rfl]
      exact ih edges e he
    | false =>
      rw [if_neg (by simp [hc])]
      exact ih (edges ++ [(pid, tid)]) e (List.mem_append_left _ he)

/-- Every connected id ends up as an edge of the join table. -/
lemma connectTagIds_mem (pid : String) :
    ∀ (tagIds : List String) (edges : List (String × String)) (i : String),
      i ∈ tagIds → (pid, i) ∈ connectTagIds pid edges tagIds := by
  intro tagIds
  induction tagIds with
  | nil => intro edges i hi; cases hi
  | cons tid rest ih =>
    intro edges i hi
    show (pid, i) ∈ (if edges.contains (pid, tid) then connectTagIds pid edges rest
      else connectTagIds pid (edges ++ [(pid, tid)]) rest)
    rcases List.mem_cons.mp hi with hi | hi
    · subst hi
      cases hc : edges.contains (pid, i) with
      | true =>
        rw [if_pos rfl]
        exact connectTagIds_mono pid rest edges _ (List.elem_iff.mp hc)
      | false =>
        rw [if_neg (by simp [hc])]
        exact connectTagIds_mono pid rest (edges ++ [(pid, i)]) _
          (List.mem_append_right _ (List.mem_singleton.mpr rfl))
    · cases hc : edges.contains (pid, tid) with
      | true =>
        rw [if_pos rfl]
        exact ih edges i hi
      | false =>
        rw [if_neg (by simp [hc])]
        exact ih (edges ++ [(pid, tid)]) i hi

/-- C2 (amended): when the tag list does not repeat a name that is absent
from the store (and author / group references are valid), post creation
succeeds; the tag-name column afterwards is the old one plus exactly the
missing names, so Tag-name uniqueness is preserved; every old tag row
survives; and each request name resolves to an id — the id of the
pre-existing row when one existed — all of which are connected to the new
post, which is appended unchanged. -/
theorem createPost_resolves_tags (db : Db) (input : PostInput)
    (freshTagIds : List String) (pid now : String)
    (hfresh : (input.interestTechTags.filter
      (fun n => !(db.tags.any (fun t => t.name == n)))).Nodup)
    (hnames : (db.tags.map (fun t => t.name)).Nodup)
    (hauthor : db.users.any (fun u => u.id == input.authorId) = true)
    (hgroup : (match input.groupId with
               | none => true
               | some gid => db.groups.any (fun g => g.id == gid)) = true) :
    (createPost db input freshTagIds pid now).1.status = .ok ∧
    ((createPost db input freshTagIds pid now).2.tags.map (fun t => t.name) =
      db.tags.map (fun t => t.name) ++
        input.interestTechTags.filter (fun n => !(db.tags.any (fun t => t.name == n)))) ∧
    ((createPost db input freshTagIds pid now).2.tags.map (fun t => t.name)).Nodup ∧
    (∀ t ∈ db.tags, t ∈ (createPost db input freshTagIds pid now).2.tags) ∧
    (∃ ids : List String,
      ids.length = input.interestTechTags.length ∧
      (∀ pr ∈ input.interestTechTags.zip ids,
        (∃ t ∈ (createPost db input freshTagIds pid now).2.tags,
          t.name = pr.1 ∧ t.id = pr.2) ∧
        (∀ t0, db.tags.find? (fun t => t.name == pr.1) = some t0 → pr.2 = t0.id)) ∧
      (∀ i ∈ ids, (pid, i) ∈ (createPost db input freshTagIds pid now).2.postTags)) ∧
    ((createPost db input freshTagIds pid now).2.posts = db.posts ++
      [{ id := pid, authorId := input.authorId, title := input.title
         createType := input.createType, groupId := input.groupId
         coverImage := input.coverImage, audioFile := input.audioFile
         audioTitle := input.audioTitle, meetupLocation := input.meetupLocation
         meetupDate := input.meetupDate, tinyContent := input.tinyContent
         createdAt := now, views := 0 }]) := by
  have hpend : pendingNames (tagFindPhase db.tags input.interestTechTags) =
      input.interestTechTags.filter (fun n => !(db.tags.any (fun t => t.name == n))) :=
    pendingNames_tagFindPhase db.tags input.interestTechTags
  have hnodup' : (pendingNames (tagFindPhase db.tags input.interestTechTags)).Nodup := by
    rw [hpend]; exact hfresh
  have hfr : ∀ n ∈ pendingNames (tagFindPhase db.tags input.interestTechTags),
      db.tags.any (fun t => t.name == n) = false := by
    intro n hn
    rw [hpend] at hn
    have hn2 := (List.mem_filter.mp hn).2
    simpa using hn2
  obtain ⟨h1, h2, h3, h4⟩ :=
    tagCreatePhase_ok (tagFindPhase db.tags input.interestTechTags) db.tags
      freshTagIds hnodup' hfr
  have hgcond : (match input.groupId with
      | none => false
      | some gid => !(db.groups.any (fun g => g.id == gid))) = false := by
    revert hgroup
    cases input.groupId <;> intro hgroup <;> simp_all
  have hstep : createPost db input freshTagIds pid now =
      ({ status := .ok,
         body := .post { id := pid, authorId := input.authorId, title := input.title
                         createType := input.createType, groupId := input.groupId
                         coverImage := input.coverImage, audioFile := input.audioFile
                         audioTitle := input.audioTitle
                         meetupLocation := input.meetupLocation
                         meetupDate := input.meetupDate, tinyContent := input.tinyContent
                         createdAt := now, views := 0 } },
        { db with
          tags := (tagCreatePhase db.tags (tagFindPhase db.tags input.interestTechTags)
            freshTagIds).tags
          posts := db.posts ++
            [{ id := pid, authorId := input.authorId, title := input.title
               createType := input.createType, groupId := input.groupId
               coverImage := input.coverImage, audioFile := input.audioFile
               audioTitle := input.audioTitle, meetupLocation := input.meetupLocation
               meetupDate := input.meetupDate, tinyContent := input.tinyContent
               createdAt := now, views := 0 }]
          postTags := connectTagIds pid db.postTags
            (tagCreatePhase db.tags (tagFindPhase db.tags input.interestTechTags)
              freshTagIds).ids }) := by
    simp only [createPost, h1, Bool.false_eq_true, if_false, hauthor, Bool.not_true,
      hgcond]
  have hdisj : (db.tags.map (fun t => t.name)).Disjoint
      (input.interestTechTags.filter (fun n => !(db.tags.any (fun t => t.name == n)))) := by
    intro a ha hb
    obtain ⟨t, htmem, hteq⟩ := List.mem_map.mp ha
    have hbf := (List.mem_filter.mp hb).2
    have : db.tags.any (fun t0 => t0.name == a) = true :=
      List.any_eq_true.mpr ⟨t, htmem, by simp [hteq]⟩
    simp [this] at hbf
  refine ⟨by rw [hstep], ?_, ?_, ?_, ?_, by rw [hstep]⟩
  · rw [hstep]
    simpa [hpend] using h2
  · rw [hstep]
    show ((tagCreatePhase db.tags (tagFindPhase db.tags input.interestTechTags)
      freshTagIds).tags.map (fun t => t.name)).Nodup
    rw [h2, hpend]
    exact List.Nodup.append hnames hfresh hdisj
  · intro t ht
    rw [hstep]
    exact tagCreatePhase_tags_mono _ db.tags freshTagIds t ht
  · refine ⟨(tagCreatePhase db.tags (tagFindPhase db.tags input.interestTechTags)
      freshTagIds).ids, ?_, ?_, ?_⟩
    · rw [h4]
      simp [tagFindPhase]
    · intro pr hpr
      have hpr2 : (Prod.map (fun n => match db.tags.find? (fun t => t.name == n) with
          | some t => Sum.inl t.id
          | none => Sum.inr n) id pr) ∈
          (tagFindPhase db.tags input.interestTechTags).zip
            (tagCreatePhase db.tags (tagFindPhase db.tags input.interestTechTags)
              freshTagIds).ids := by
        rw [tagFindPhase, List.zip_map_left]
        exact List.mem_map_of_mem _ hpr
      have hp3 := h3 _ hpr2
      cases hf : db.tags.find? (fun t => t.name == pr.1) with
      | some t0 =>
        have hid : pr.2 = t0.id := by
          apply hp3.1 t0.id
          simp [Prod.map, hf]
        refine ⟨⟨t0, ?_, ?_, hid.symm⟩, fun t1 ht1 => ?_⟩
        · rw [hstep]
          exact tagCreatePhase_tags_mono _ db.tags freshTagIds t0
            (List.mem_of_find?_eq_some hf)
        · have := @List.find?_some TagRow (fun t => t.name == pr.1) t0 db.tags hf
          simpa using this
        · injection ht1 with hteq
          rw [hid, hteq]
      | none =>
        have hex := hp3.2 pr.1 (by simp [Prod.map, hf])
        obtain ⟨t, htmem, htn, hti⟩ := hex
        exact ⟨⟨t, by rw [hstep]; exact htmem, htn, hti⟩,
          fun t1 ht1 => by cases ht1⟩
    · intro i hi
      rw [hstep]
      exact connectTagIds_mem pid _ db.postTags i hi

/-- A store holding ann and an existing tag "java". -/
def tagStoreDb : Db :=
  { emptyDb with
    users := [{ id := "ann", email := "ann@x.com", password := none
                username := "ann", image := none }]
    tags := [{ id := "tj", name := "java" }] }

/-- A post request naming one existing tag and one fresh tag. -/
def mixedTagInput : PostInput :=
  { authorId := "ann", title := "t", createType := .STANDARD, groupId := none
    coverImage := none, audioFile := none, audioTitle := none
    meetupLocation := none, meetupDate := none, tinyContent := none
    interestTechTags := ["java", "rust"] }

/-- C2 witness: with tags ["java", "rust"] where only "java" exists, the
create succeeds and the tag-name column is extended by exactly "rust". -/
theorem createPost_resolves_tags_witness :
    (createPost tagStoreDb mixedTagInput ["t9"] "p1" "now").1.status = .ok ∧
    ((createPost tagStoreDb mixedTagInput ["t9"] "p1" "now").2.tags.map
        (fun t => t.name) =
      tagStoreDb.tags.map (fun t => t.name) ++
        mixedTagInput.interestTechTags.filter
          (fun n => !(tagStoreDb.tags.any (fun t => t.name == n)))) :=
  have h := createPost_resolves_tags tagStoreDb mixedTagInput ["t9"] "p1" "now"
    (by decide) (by decide) (by decide) (by decide)
  ⟨h.1, h.2.1⟩

/-- A post request repeating the fresh tag name "rust". -/
def dupTagInput : PostInput :=
  { authorId := "ann", title := "t", createType := .STANDARD, groupId := none
    coverImage := none, audioFile := none, audioTitle := none
    meetupLocation := none, meetupDate := none, tinyContent := none
    interestTechTags := ["rust", "rust"] }

/-- C2 counterexample: with tags ["rust", "rust"] and no "rust" row in the
store, both lookups of the `Promise.all` miss (they are all issued before any
create), so the second scheduled create hits the Tag.name unique constraint;
the handler answers 500 and no post is created or connected — refuting the
claim that every such request resolves the names and connects the post.  The
first create's "rust" row persists, so Tag-name uniqueness itself still
holds. -/
theorem createPost_duplicate_fresh_tags_counterexample :
    (createPost tagStoreDb dupTagInput ["t1", "t2"] "p1" "now").1.status =
      .internalServerError ∧
    (createPost tagStoreDb dupTagInput ["t1", "t2"] "p1" "now").1.status ≠ .ok ∧
    (createPost tagStoreDb dupTagInput ["t1", "t2"] "p1" "now").2.posts = [] ∧
    (createPost tagStoreDb dupTagInput ["t1", "t2"] "p1" "now").2.postTags = [] ∧
    (createPost tagStoreDb dupTagInput ["t1", "t2"] "p1" "now").2.tags.map
      (fun t => t.name) = ["java", "rust"] := by
  decide

end DevToday
